import Mathlib

/-!
# Reversible diff commitment of the consensus state (`consensus/diffs.go`)

A shallow embedding of `commitOutputDiff`, `commitContractDiff` and
`BlockOutputDiffs`.

* The identifier and payload types (`OutputID`, `Output`, `ContractID`,
  `FileContract`, `BlockID`) are declared outside `diffs.go`; they are type
  parameters here, the identifiers with decidable equality (they are Go map keys).
* A Go map `map[K]V` is a function `K → Option V`: `m[k] = v` is
  `Function.update m k (some v)`, `delete(m, k)` is `Function.update m k none`,
  and the comma-ok lookup `_, exists := m[k]` is `(m k).isSome`.  The maps of
  a state are allocated.
* The build constant `DEBUG` is declared outside `diffs.go`; it is a parameter.
* A Go `panic` is `Except.error` carrying the panic message; a normal return
  is `Except.ok` carrying the mutated state.
* A Go `error` value is `Option String`: `none` is `nil`, `some msg` is
  `errors.New(msg)`.  A slice is a `List`; the `nil` slice is `[]`.
-/

set_option linter.unusedSectionVars false

namespace Consensus

/-- An OutputDiff indicates an output that has either been added to or removed
from the unspent outputs set. -/
structure OutputDiff (OutputID Output : Type) where
  New : Bool
  ID : OutputID
  Output : Output

/-- A ContractDiff is the contract counterpart of an OutputDiff. -/
structure ContractDiff (ContractID FileContract : Type) where
  New : Bool
  ID : ContractID
  Contract : FileContract

/-- The two fields of a block node that `diffs.go` reads. -/
structure BlockNode (OutputID Output : Type) where
  outputDiffs : List (OutputDiff OutputID Output)
  diffsGenerated : Bool

/-- The three maps of the consensus state that `diffs.go` reads or writes. -/
structure State (OutputID Output ContractID FileContract BlockID : Type) where
  unspentOutputs : OutputID → Option Output
  openContracts : ContractID → Option FileContract
  blockMap : BlockID → Option (BlockNode OutputID Output)

section Defs

variable {OutputID Output ContractID FileContract BlockID : Type}
variable [DecidableEq OutputID] [DecidableEq ContractID]

/-- Embedding of `commitOutputDiff`: applies an output diff to the state;
`forward` indicates the direction of the blockchain. -/
def commitOutputDiff (DEBUG : Bool)
    (s : State OutputID Output ContractID FileContract BlockID)
    (od : OutputDiff OutputID Output) (forward : Bool) :
    Except String (State OutputID Output ContractID FileContract BlockID) :=
  let add := if !forward then !od.New else od.New
  if add then
    -- Sanity check - output should not already exist.
    if DEBUG && (s.unspentOutputs od.ID).isSome then
      Except.error "rogue new output in applyOutputDiff"
    else
      Except.ok { s with unspentOutputs := Function.update s.unspentOutputs od.ID (some od.Output) }
  else
    -- Sanity check - output should exist.
    if DEBUG && !(s.unspentOutputs od.ID).isSome then
      Except.error "rogue non-new output in applyOutputDiff"
    else
      Except.ok { s with unspentOutputs := Function.update s.unspentOutputs od.ID none }

/-- Embedding of `commitContractDiff`: applies a contract diff to the state;
`forward` indicates the direction of the blockchain. -/
def commitContractDiff (DEBUG : Bool)
    (s : State OutputID Output ContractID FileContract BlockID)
    (cd : ContractDiff ContractID FileContract) (forward : Bool) :
    Except String (State OutputID Output ContractID FileContract BlockID) :=
  let add := if !forward then !cd.New else cd.New
  if add then
    -- Sanity check - contract should not already exist.
    if DEBUG && (s.openContracts cd.ID).isSome then
      Except.error "rogue new contract in applyContractDiff"
    else
      Except.ok { s with openContracts := Function.update s.openContracts cd.ID (some cd.Contract) }
  else
    -- Sanity check - contract should exist.
    if DEBUG && !(s.openContracts cd.ID).isSome then
      Except.error "rogue non-new contract in applyContractDiff"
    else
      Except.ok { s with openContracts := Function.update s.openContracts cd.ID none }

/-- Embedding of `BlockOutputDiffs`: the pair of named results `(diffs, err)`. -/
def BlockOutputDiffs (s : State OutputID Output ContractID FileContract BlockID)
    (id : BlockID) : List (OutputDiff OutputID Output) × Option String :=
  match s.blockMap id with
  | none => ([], some "requested an unknown block")
  | some node =>
    if !node.diffsGenerated then
      ([], some "diffs have not been generated for the requested block.")
    else
      (node.outputDiffs, none)

/-- The caller's loop over a block's diffs: commits the diffs of `L` one after
the other, in list order, all in direction `forward`; the first panic ends the
run.  `diffs.go` has no such function: this is the sequential composition of
`commitOutputDiff` used when a whole block is applied or reverted. -/
def commitOutputDiffs (DEBUG : Bool)
    (s : State OutputID Output ContractID FileContract BlockID)
    (L : List (OutputDiff OutputID Output)) (forward : Bool) :
    Except String (State OutputID Output ContractID FileContract BlockID) :=
  match L with
  | [] => Except.ok s
  | od :: rest =>
    match commitOutputDiff DEBUG s od forward with
    | Except.ok s1 => commitOutputDiffs DEBUG s1 rest forward
    | Except.error e => Except.error e

/-- Payload fidelity of a diff sequence applied forward to `s`: every removal
diff (`New = false`) carries as its `Output` the value stored under its `ID` at
the moment it is applied. -/
def payloadFaithful (s : State OutputID Output ContractID FileContract BlockID)
    (L : List (OutputDiff OutputID Output)) : Prop :=
  match L with
  | [] => True
  | od :: rest =>
    (od.New = false → s.unspentOutputs od.ID = some od.Output) ∧
      match commitOutputDiff true s od true with
      | Except.ok s1 => payloadFaithful s1 rest
      | Except.error _ => True

/-- Two runs have the same outcome when both end in a panic or both complete
with the same state. -/
def sameOutcome (a b : Except String (State OutputID Output ContractID FileContract BlockID)) :
    Prop :=
  match a, b with
  | Except.ok x, Except.ok y => x = y
  | Except.error _, Except.error _ => True
  | _, _ => False

/-- The correspondence of diffs between the two namespaces:
`ContractDiff{New, ID, Contract}` is read as `OutputDiff{New, ID, Output}`. -/
def ContractDiff.toOutputDiff (cd : ContractDiff ContractID FileContract) :
    OutputDiff ContractID FileContract :=
  { New := cd.New, ID := cd.ID, Output := cd.Contract }

/-- The correspondence of outcomes between the two namespaces: a run of
`commitContractDiff` and a run of `commitOutputDiff` over the contract types
correspond when both end in a panic, or both complete and the `openContracts`
map of the first result is the `unspentOutputs` map of the second. -/
def outcomesCorrespond {OutputID2 Output2 BlockID2 : Type}
    (a : Except String (State OutputID Output ContractID FileContract BlockID))
    (b : Except String (State ContractID FileContract OutputID2 Output2 BlockID2)) : Prop :=
  match a, b with
  | Except.ok s1, Except.ok t1 => t1.unspentOutputs = s1.openContracts
  | Except.error _, Except.error _ => True
  | _, _ => False

end Defs

/-- A concrete state over natural-number identifiers and payloads with no
unspent output, no open contract and no block. -/
def emptyState : State Nat Nat Nat Nat Nat :=
  { unspentOutputs := fun _ => none, openContracts := fun _ => none, blockMap := fun _ => none }

/-- A concrete state whose only unspent output is `1 ↦ 5`. -/
def oneOutputState : State Nat Nat Nat Nat Nat :=
  { emptyState with unspentOutputs := Function.update (fun _ => none) 1 (some 5) }

/-- A concrete state with two blocks: block 3 has its diffs generated, block 4
has a non-empty `outputDiffs` field but `diffsGenerated = false`. -/
def twoBlockState : State Nat Nat Nat Nat Nat :=
  { emptyState with
    blockMap := fun b =>
      if b = 3 then some { outputDiffs := [{ New := true, ID := 1, Output := 5 }], diffsGenerated := true }
      else if b = 4 then some { outputDiffs := [{ New := true, ID := 2, Output := 6 }], diffsGenerated := false }
      else none }

/-- A concrete state with one unspent output `1 ↦ 5` and one open contract
`1 ↦ 8` under the same identifier value, and the blocks of `twoBlockState`. -/
def mixedState : State Nat Nat Nat Nat Nat :=
  { twoBlockState with
    unspentOutputs := Function.update (fun _ => none) 1 (some 5)
    openContracts := Function.update (fun _ => none) 1 (some 8) }

/-! ## Single-step lemmas -/

section Lemmas

variable {OutputID Output ContractID FileContract BlockID : Type}
variable [DecidableEq OutputID] [DecidableEq ContractID]

/-- An add on an absent identifier inserts, whatever `DEBUG` is. -/
theorem commitOutputDiff_add_absent (DEBUG : Bool)
    (s : State OutputID Output ContractID FileContract BlockID)
    (od : OutputDiff OutputID Output) (forward : Bool)
    (hadd : od.New = forward) (habs : s.unspentOutputs od.ID = none) :
    commitOutputDiff DEBUG s od forward =
      Except.ok { s with
        unspentOutputs := Function.update s.unspentOutputs od.ID (some od.Output) } := by
  cases forward <;> simp [commitOutputDiff, hadd, habs]

/-- With the sanity checks on, an add on a present identifier panics. -/
theorem commitOutputDiff_add_present (s : State OutputID Output ContractID FileContract BlockID)
    (od : OutputDiff OutputID Output) (forward : Bool)
    (hadd : od.New = forward) (hpres : (s.unspentOutputs od.ID).isSome = true) :
    commitOutputDiff true s od forward = Except.error "rogue new output in applyOutputDiff" := by
  cases forward <;> simp [commitOutputDiff, hadd, hpres]

/-- A removal of a present identifier deletes, whatever `DEBUG` is. -/
theorem commitOutputDiff_remove_present (DEBUG : Bool)
    (s : State OutputID Output ContractID FileContract BlockID)
    (od : OutputDiff OutputID Output) (forward : Bool)
    (hrem : od.New ≠ forward) (hpres : (s.unspentOutputs od.ID).isSome = true) :
    commitOutputDiff DEBUG s od forward =
      Except.ok { s with unspentOutputs := Function.update s.unspentOutputs od.ID none } := by
  cases forward <;> simp_all [commitOutputDiff]

/-- With the sanity checks on, a removal of an absent identifier panics. -/
theorem commitOutputDiff_remove_absent (s : State OutputID Output ContractID FileContract BlockID)
    (od : OutputDiff OutputID Output) (forward : Bool)
    (hrem : od.New ≠ forward) (habs : s.unspentOutputs od.ID = none) :
    commitOutputDiff true s od forward =
      Except.error "rogue non-new output in applyOutputDiff" := by
  cases forward <;> simp_all [commitOutputDiff]

/-- A commit that completes with the sanity checks on completes with the same
state whatever `DEBUG` is. -/
theorem commitOutputDiff_ok_of_checked (DEBUG : Bool)
    (s s1 : State OutputID Output ContractID FileContract BlockID)
    (od : OutputDiff OutputID Output) (forward : Bool)
    (h : commitOutputDiff true s od forward = Except.ok s1) :
    commitOutputDiff DEBUG s od forward = Except.ok s1 := by
  by_cases hadd : od.New = forward
  · cases hp : s.unspentOutputs od.ID with
    | none =>
      rw [commitOutputDiff_add_absent true s od forward hadd hp] at h
      rw [commitOutputDiff_add_absent DEBUG s od forward hadd hp]; exact h
    | some v =>
      rw [commitOutputDiff_add_present s od forward hadd (by simp [hp])] at h
      cases h
  · cases hp : s.unspentOutputs od.ID with
    | none =>
      rw [commitOutputDiff_remove_absent s od forward hadd hp] at h
      cases h
    | some v =>
      rw [commitOutputDiff_remove_present true s od forward hadd (by simp [hp])] at h
      rw [commitOutputDiff_remove_present DEBUG s od forward hadd (by simp [hp])]; exact h

/-- Undoing one diff: if `od` is committed forward with the sanity checks on,
and carries the stored value when it is a removal, committing it backward on
the result gives back the state it started from. -/
theorem commitOutputDiff_undo (s s1 : State OutputID Output ContractID FileContract BlockID)
    (od : OutputDiff OutputID Output)
    (hfwd : commitOutputDiff true s od true = Except.ok s1)
    (hpay : od.New = false → s.unspentOutputs od.ID = some od.Output) :
    commitOutputDiff true s1 od false = Except.ok s := by
  cases hnew : od.New with
  | true =>
    cases hp : s.unspentOutputs od.ID with
    | some v =>
      rw [commitOutputDiff_add_present s od true hnew (by simp [hp])] at hfwd
      cases hfwd
    | none =>
      rw [commitOutputDiff_add_absent true s od true hnew hp] at hfwd
      cases hfwd
      rw [commitOutputDiff_remove_present true _ od false (by simp [hnew]) (by simp)]
      have hmap : Function.update (Function.update s.unspentOutputs od.ID (some od.Output))
          od.ID none = s.unspentOutputs := by
        rw [Function.update_idem, ← hp, Function.update_eq_self]
      simp only [hmap]
  | false =>
    have hp := hpay hnew
    rw [commitOutputDiff_remove_present true s od true (by simp [hnew]) (by simp [hp])] at hfwd
    cases hfwd
    rw [commitOutputDiff_add_absent true _ od false hnew (by simp)]
    have hmap : Function.update (Function.update s.unspentOutputs od.ID none)
        od.ID (some od.Output) = s.unspentOutputs := by
      rw [Function.update_idem, ← hp, Function.update_eq_self]
    simp only [hmap]

/-- Committing a concatenation commits the first part and then the second. -/
theorem commitOutputDiffs_append (DEBUG : Bool)
    (s : State OutputID Output ContractID FileContract BlockID)
    (A B : List (OutputDiff OutputID Output)) (forward : Bool) :
    commitOutputDiffs DEBUG s (A ++ B) forward =
      match commitOutputDiffs DEBUG s A forward with
      | Except.ok s1 => commitOutputDiffs DEBUG s1 B forward
      | Except.error e => Except.error e := by
  induction A generalizing s with
  | nil => simp [commitOutputDiffs]
  | cons od rest ih =>
    simp only [List.cons_append, commitOutputDiffs]
    cases commitOutputDiff DEBUG s od forward with
    | error e => rfl
    | ok s1 => exact ih s1

/-- A run that completes with the sanity checks on completes with the same
state whatever `DEBUG` is. -/
theorem commitOutputDiffs_ok_of_checked (DEBUG : Bool)
    (s s1 : State OutputID Output ContractID FileContract BlockID)
    (L : List (OutputDiff OutputID Output)) (forward : Bool)
    (h : commitOutputDiffs true s L forward = Except.ok s1) :
    commitOutputDiffs DEBUG s L forward = Except.ok s1 := by
  induction L generalizing s with
  | nil => simpa [commitOutputDiffs] using h
  | cons od rest ih =>
    simp only [commitOutputDiffs] at h ⊢
    cases hstep : commitOutputDiff true s od forward with
    | error e => rw [hstep] at h; cases h
    | ok s2 =>
      rw [hstep] at h
      rw [commitOutputDiff_ok_of_checked DEBUG s s2 od forward hstep]
      exact ih s2 h

/-- Reverting a block: after a checked forward run of a payload-faithful
sequence, the checked backward run over the reversed sequence completes and
gives back the state the forward run started from. -/
theorem commitOutputDiffs_revert (s s1 : State OutputID Output ContractID FileContract BlockID)
    (L : List (OutputDiff OutputID Output))
    (hfwd : commitOutputDiffs true s L true = Except.ok s1)
    (hpay : payloadFaithful s L) :
    commitOutputDiffs true s1 L.reverse false = Except.ok s := by
  induction L generalizing s with
  | nil =>
    simp only [commitOutputDiffs] at hfwd
    cases hfwd
    simp [commitOutputDiffs]
  | cons od rest ih =>
    simp only [commitOutputDiffs] at hfwd
    simp only [payloadFaithful] at hpay
    cases hstep : commitOutputDiff true s od true with
    | error e => rw [hstep] at hfwd; cases hfwd
    | ok s2 =>
      rw [hstep] at hfwd hpay
      rw [List.reverse_cons, commitOutputDiffs_append, ih s2 hfwd hpay.2]
      simp only [commitOutputDiffs]
      rw [commitOutputDiff_undo s s2 od hstep hpay.1]

/-- A two-diff run whose first commit completes is the second commit on the
state the first one leaves. -/
theorem commitOutputDiffs_pair (DEBUG : Bool)
    (s s1 : State OutputID Output ContractID FileContract BlockID)
    (a b : OutputDiff OutputID Output) (forward : Bool)
    (h : commitOutputDiff DEBUG s a forward = Except.ok s1) :
    commitOutputDiffs DEBUG s [a, b] forward = commitOutputDiff DEBUG s1 b forward := by
  simp only [commitOutputDiffs, h]
  cases commitOutputDiff DEBUG s1 b forward <;> rfl

end Lemmas

/-! ## Symmetry, directional equivalence and reversibility -/

section Reversibility

variable {OutputID Output ContractID FileContract BlockID : Type}
variable [DecidableEq OutputID] [DecidableEq ContractID]

/-- C1 (as amended): for either setting of `DEBUG`, if `d.ID` is absent from
`unspentOutputs` when `d.New` is true and present when `d.New` is false, then
committing `d` forward and then backward triggers no integrity violation; the
entry for `d.ID` afterwards is absent when `d.New` is true and is `d.Output`
when `d.New` is false, so it is present or absent as before, and it is the
entry of `s` itself whenever a removal diff carries the value stored in `s`. -/
theorem commitOutputDiff_forward_backward (DEBUG : Bool)
    (s : State OutputID Output ContractID FileContract BlockID)
    (d : OutputDiff OutputID Output)
    (hnew : d.New = true → s.unspentOutputs d.ID = none)
    (hold : d.New = false → (s.unspentOutputs d.ID).isSome = true) :
    ∃ s1 s2, commitOutputDiff DEBUG s d true = Except.ok s1 ∧
      commitOutputDiff DEBUG s1 d false = Except.ok s2 ∧
      s2.unspentOutputs d.ID = (if d.New then none else some d.Output) ∧
      (s2.unspentOutputs d.ID).isSome = (s.unspentOutputs d.ID).isSome ∧
      ((d.New = false → s.unspentOutputs d.ID = some d.Output) →
        s2.unspentOutputs d.ID = s.unspentOutputs d.ID) := by
  cases hN : d.New with
  | true =>
    have habs := hnew hN
    refine ⟨_, _, commitOutputDiff_add_absent DEBUG s d true hN habs,
      commitOutputDiff_remove_present DEBUG _ d false (by simp [hN]) (by simp), ?_, ?_, ?_⟩
    · simp
    · simp [habs]
    · intro _; simp [habs]
  | false =>
    have hpres := hold hN
    refine ⟨_, _, commitOutputDiff_remove_present DEBUG s d true (by simp [hN]) hpres,
      commitOutputDiff_add_absent DEBUG _ d false hN (by simp), ?_, ?_, ?_⟩
    · simp
    · simp [hpres]
    · intro h; simp [h rfl]

/-- C1 (as stated, refuted): in the state whose only unspent output is `1 ↦ 5`,
the removal diff `{New: false, ID: 1, Output: 9}` can be committed forward (its
identifier is present); committing it forward and then backward completes and
leaves `1 ↦ 9`, not the `1 ↦ 5` it started from. -/
theorem commitOutputDiff_forward_backward_value_differs :
    (oneOutputState.unspentOutputs 1).isSome = true ∧
    ∃ s1 s2, commitOutputDiff true oneOutputState { New := false, ID := 1, Output := 9 } true
        = Except.ok s1 ∧
      commitOutputDiff true s1 { New := false, ID := 1, Output := 9 } false = Except.ok s2 ∧
      oneOutputState.unspentOutputs 1 = some 5 ∧ s2.unspentOutputs 1 = some 9 ∧
      s2.unspentOutputs 1 ≠ oneOutputState.unspentOutputs 1 := by
  refine ⟨rfl, _, _, rfl, rfl, rfl, rfl, ?_⟩
  decide

/-- C1 witness: the amended symmetry at the empty state and the creation diff
`{New: true, ID: 1, Output: 5}`. -/
theorem commitOutputDiff_forward_backward_witness :
    ∃ s1 s2, commitOutputDiff true emptyState { New := true, ID := 1, Output := 5 } true
        = Except.ok s1 ∧
      commitOutputDiff true s1 { New := true, ID := 1, Output := 5 } false = Except.ok s2 ∧
      s2.unspentOutputs 1 = (if true then none else some 5) ∧
      (s2.unspentOutputs 1).isSome = (emptyState.unspentOutputs 1).isSome ∧
      ((true = false → emptyState.unspentOutputs 1 = some 5) →
        s2.unspentOutputs 1 = emptyState.unspentOutputs 1) :=
  commitOutputDiff_forward_backward true emptyState { New := true, ID := 1, Output := 5 }
    (fun _ => rfl) (fun h => by cases h)

/-- C2: for either setting of `DEBUG`, committing `d` backward has exactly the
outcome of committing `{New: !d.New, ID: d.ID, Output: d.Output}` forward: the
same panic or the same resulting state. -/
theorem commitOutputDiff_backward_eq_flipped_forward (DEBUG : Bool)
    (s : State OutputID Output ContractID FileContract BlockID)
    (d : OutputDiff OutputID Output) :
    commitOutputDiff DEBUG s d false =
      commitOutputDiff DEBUG s { New := !d.New, ID := d.ID, Output := d.Output } true := by
  simp [commitOutputDiff]

/-- C3 (as amended): if the forward run of `L` on `s` with the sanity checks on
triggers no integrity violation and every removal diff of `L` carries the value
stored under its identifier when it is applied, then for either setting of
`DEBUG` committing `L` forward in order and then the reverse of `L` backward
completes with an `unspentOutputs` mapping identical to that of `s`. -/
theorem commitOutputDiffs_forward_then_reverse (DEBUG : Bool)
    (s s1 : State OutputID Output ContractID FileContract BlockID)
    (L : List (OutputDiff OutputID Output))
    (hfwd : commitOutputDiffs true s L true = Except.ok s1)
    (hpay : payloadFaithful s L) :
    commitOutputDiffs DEBUG s L true = Except.ok s1 ∧
      ∃ s2, commitOutputDiffs DEBUG s1 L.reverse false = Except.ok s2 ∧
        s2.unspentOutputs = s.unspentOutputs :=
  ⟨commitOutputDiffs_ok_of_checked DEBUG s s1 L true hfwd, s,
    commitOutputDiffs_ok_of_checked DEBUG s1 s L.reverse false
      (commitOutputDiffs_revert s s1 L hfwd hpay), rfl⟩

/-- C3 (as stated, refuted): on the state whose only unspent output is `1 ↦ 5`
the one-diff sequence `[{New: false, ID: 1, Output: 9}]` runs forward without an
integrity violation, the backward run over the reversed sequence completes too,
and the resulting mapping differs from the initial one at identifier 1. -/
theorem commitOutputDiffs_forward_then_reverse_differs :
    ∃ s1 s2, commitOutputDiffs true oneOutputState [{ New := false, ID := 1, Output := 9 }] true
        = Except.ok s1 ∧
      commitOutputDiffs true s1 [{ New := false, ID := 1, Output := 9 }].reverse false
        = Except.ok s2 ∧
      s2.unspentOutputs ≠ oneOutputState.unspentOutputs := by
  refine ⟨_, _, rfl, rfl, ?_⟩
  intro h
  have h1 := congrFun h 1
  revert h1
  decide

/-- C3 witness: block B of the end-to-end scenario, `[{false, 1, 5}, {true, 2, 6}]`,
applied to the state holding `1 ↦ 5` and then reverted. -/
theorem commitOutputDiffs_forward_then_reverse_witness :
    ∃ s1, (commitOutputDiffs true oneOutputState
        [{ New := false, ID := 1, Output := 5 }, { New := true, ID := 2, Output := 6 }] true
        = Except.ok s1 ∧
      ∃ s2, commitOutputDiffs true s1
        [{ New := false, ID := 1, Output := 5 }, { New := true, ID := 2, Output := 6 }].reverse
        false = Except.ok s2 ∧ s2.unspentOutputs = oneOutputState.unspentOutputs) :=
  ⟨_, commitOutputDiffs_forward_then_reverse true oneOutputState _
    [{ New := false, ID := 1, Output := 5 }, { New := true, ID := 2, Output := 6 }] rfl
    ⟨fun _ => rfl, show payloadFaithful _ [{ New := true, ID := 2, Output := 6 }] from
      ⟨fun h => Bool.noConfusion h, trivial⟩⟩⟩

end Reversibility

/-! ## The end-to-end scenario and the sanity checks -/

section Checks

variable {OutputID Output ContractID FileContract BlockID : Type}
variable [DecidableEq OutputID] [DecidableEq ContractID]

/-- C4: for distinct identifiers `O1`, `O2` and any outputs `V`, `W`, starting
from a state with an empty `unspentOutputs` map and for either setting of
`DEBUG`: block A (`{true, O1, V}` forward) gives the map `{O1 ↦ V}`; block B
(`{false, O1, V}` then `{true, O2, W}`, forward) gives exactly `{O2 ↦ W}`;
reverting B (`{true, O2, W}` then `{false, O1, V}`, backward) gives exactly
`{O1 ↦ V}`; every step completes. -/
theorem end_to_end_scenario (DEBUG : Bool)
    (s0 : State OutputID Output ContractID FileContract BlockID)
    (O1 O2 : OutputID) (V W : Output)
    (hne : O1 ≠ O2) (hempty : s0.unspentOutputs = fun _ => none) :
    ∃ sA sB1 sB sR1 sR,
      commitOutputDiff DEBUG s0 { New := true, ID := O1, Output := V } true = Except.ok sA ∧
      sA.unspentOutputs = (fun i => if i = O1 then some V else none) ∧
      commitOutputDiff DEBUG sA { New := false, ID := O1, Output := V } true = Except.ok sB1 ∧
      commitOutputDiff DEBUG sB1 { New := true, ID := O2, Output := W } true = Except.ok sB ∧
      sB.unspentOutputs = (fun i => if i = O2 then some W else none) ∧
      commitOutputDiff DEBUG sB { New := true, ID := O2, Output := W } false = Except.ok sR1 ∧
      commitOutputDiff DEBUG sR1 { New := false, ID := O1, Output := V } false = Except.ok sR ∧
      sR.unspentOutputs = (fun i => if i = O1 then some V else none) := by
  have hne2 : O2 ≠ O1 := fun h => hne h.symm
  refine ⟨_, _, _, _, _,
    commitOutputDiff_add_absent DEBUG s0 _ true rfl (by simp [hempty]), ?_,
    commitOutputDiff_remove_present DEBUG _ _ true (by simp) (by simp),
    commitOutputDiff_add_absent DEBUG _ _ true rfl ?_, ?_,
    commitOutputDiff_remove_present DEBUG _ _ false (by simp) ?_,
    commitOutputDiff_add_absent DEBUG _ _ false rfl ?_, ?_⟩
  · funext i
    by_cases h : i = O1 <;> simp [hempty, Function.update, h]
  · simp [hempty, Function.update, hne2]
  · funext i
    by_cases h : i = O2 <;> by_cases h1 : i = O1 <;> simp [hempty, Function.update, h, h1]
  · simp
  · simp [hempty, Function.update, hne]
  · funext i
    by_cases h : i = O2 <;> by_cases h1 : i = O1 <;> simp_all [Function.update]

/-- C4 witness: the scenario with `O1 = 1`, `O2 = 2`, `V = 5`, `W = 6`, the
sanity checks on, from the empty state. -/
theorem end_to_end_scenario_witness :
    ∃ sA sB1 sB sR1 sR,
      commitOutputDiff true emptyState { New := true, ID := 1, Output := 5 } true
        = Except.ok sA ∧
      sA.unspentOutputs = (fun i => if i = 1 then some 5 else none) ∧
      commitOutputDiff true sA { New := false, ID := 1, Output := 5 } true = Except.ok sB1 ∧
      commitOutputDiff true sB1 { New := true, ID := 2, Output := 6 } true = Except.ok sB ∧
      sB.unspentOutputs = (fun i => if i = 2 then some 6 else none) ∧
      commitOutputDiff true sB { New := true, ID := 2, Output := 6 } false = Except.ok sR1 ∧
      commitOutputDiff true sR1 { New := false, ID := 1, Output := 5 } false = Except.ok sR ∧
      sR.unspentOutputs = (fun i => if i = 1 then some 5 else none) :=
  end_to_end_scenario true emptyState 1 2 5 6 (by decide) rfl

/-- C5: with the sanity checks on, any commit whose effective action is an add
(`d.New = forward`) on a state where `d.ID` is present panics with the
rogue-new-output message; in particular, after a creation diff `d1` has been
committed forward, committing forward a second creation diff `d2` with the same
identifier panics. -/
theorem double_add_rejected (s : State OutputID Output ContractID FileContract BlockID)
    (d : OutputDiff OutputID Output) (forward : Bool) :
    (d.New = forward → (s.unspentOutputs d.ID).isSome = true →
      commitOutputDiff true s d forward = Except.error "rogue new output in applyOutputDiff") ∧
    (∀ (d2 : OutputDiff OutputID Output)
        (s1 : State OutputID Output ContractID FileContract BlockID),
      d.ID = d2.ID → d.New = true → d2.New = true →
      commitOutputDiff true s d true = Except.ok s1 →
      commitOutputDiff true s1 d2 true = Except.error "rogue new output in applyOutputDiff") := by
  refine ⟨commitOutputDiff_add_present s d forward, ?_⟩
  intro d2 s1 hid h1 h2 hok
  apply commitOutputDiff_add_present s1 d2 true h2
  cases hp : s.unspentOutputs d.ID with
  | some v =>
    rw [commitOutputDiff_add_present s d true h1 (by simp [hp])] at hok
    cases hok
  | none =>
    rw [commitOutputDiff_add_absent true s d true h1 hp] at hok
    cases hok
    rw [← hid]
    simp

/-- C5 witness: the backward commit of the removal diff `{false, 1, 9}` (an
effective add) on the state holding `1 ↦ 5` panics, and so does the second of
two forward creations of identifier 1 from the empty state. -/
theorem double_add_rejected_witness :
    commitOutputDiff true oneOutputState { New := false, ID := 1, Output := 9 } false
        = Except.error "rogue new output in applyOutputDiff" ∧
    ∃ s1, commitOutputDiff true emptyState { New := true, ID := 1, Output := 5 } true
        = Except.ok s1 ∧
      commitOutputDiff true s1 { New := true, ID := 1, Output := 7 } true
        = Except.error "rogue new output in applyOutputDiff" :=
  ⟨(double_add_rejected oneOutputState { New := false, ID := 1, Output := 9 } false).1 rfl rfl,
    _, rfl,
    (double_add_rejected emptyState { New := true, ID := 1, Output := 5 } true).2
      { New := true, ID := 1, Output := 7 } _ rfl rfl rfl rfl⟩

/-- C6: with the sanity checks on, a commit whose effective action is a removal
(`d.New ≠ forward`) panics, with the rogue-non-new-output message, exactly when
`d.ID` is not present in `unspentOutputs`; a removal of a present identifier
completes. -/
theorem double_remove_rejected (s : State OutputID Output ContractID FileContract BlockID)
    (d : OutputDiff OutputID Output) (forward : Bool) (hrem : d.New ≠ forward) :
    (s.unspentOutputs d.ID = none →
      commitOutputDiff true s d forward
        = Except.error "rogue non-new output in applyOutputDiff") ∧
    (∀ e, commitOutputDiff true s d forward = Except.error e →
      s.unspentOutputs d.ID = none) ∧
    ((s.unspentOutputs d.ID).isSome = true →
      ∃ s1, commitOutputDiff true s d forward = Except.ok s1) := by
  refine ⟨commitOutputDiff_remove_absent s d forward hrem, ?_, ?_⟩
  · intro e he
    cases hp : s.unspentOutputs d.ID with
    | none => rfl
    | some v =>
      rw [commitOutputDiff_remove_present true s d forward hrem (by simp [hp])] at he
      cases he
  · intro hp
    exact ⟨_, commitOutputDiff_remove_present true s d forward hrem hp⟩

/-- C6 witness: on the empty state the forward removal `{false, 1, 5}` panics; on
the state holding `1 ↦ 5` the backward commit of the creation diff `{true, 1, 5}`
(an effective removal) completes. -/
theorem double_remove_rejected_witness :
    commitOutputDiff true emptyState { New := false, ID := 1, Output := 5 } true
        = Except.error "rogue non-new output in applyOutputDiff" ∧
    ∃ s1, commitOutputDiff true oneOutputState { New := true, ID := 1, Output := 5 } false
        = Except.ok s1 :=
  ⟨(double_remove_rejected emptyState { New := false, ID := 1, Output := 5 } true
      (by decide)).1 rfl,
    (double_remove_rejected oneOutputState { New := true, ID := 1, Output := 5 } false
      (by decide)).2.2 rfl⟩

end Checks

/-! ## Postconditions of a single commit -/

section Postconditions

variable {OutputID Output ContractID FileContract BlockID : Type}
variable [DecidableEq OutputID] [DecidableEq ContractID]

/-- C7: for either setting of `DEBUG`, a commit whose effective action is an add
(`d.New = forward`) on a state where `d.ID` is absent completes; the resulting
`unspentOutputs` maps `d.ID` to exactly `d.Output` and the entry of every other
identifier is unchanged.  In particular (`d.New = false`, `forward = false`)
reverting a removal diff recreates exactly the output carried in the diff. -/
theorem commitOutputDiff_insert_post (DEBUG : Bool)
    (s : State OutputID Output ContractID FileContract BlockID)
    (d : OutputDiff OutputID Output) (forward : Bool)
    (hadd : d.New = forward) (habs : s.unspentOutputs d.ID = none) :
    ∃ s1, commitOutputDiff DEBUG s d forward = Except.ok s1 ∧
      s1.unspentOutputs d.ID = some d.Output ∧
      ∀ i, i ≠ d.ID → s1.unspentOutputs i = s.unspentOutputs i := by
  refine ⟨_, commitOutputDiff_add_absent DEBUG s d forward hadd habs, ?_, ?_⟩
  · simp
  · intro i hi
    simp [Function.update, hi]

/-- C7 witness: reverting the removal diff `{false, 1, 9}` on the empty state
recreates `1 ↦ 9`. -/
theorem commitOutputDiff_insert_post_witness :
    ∃ s1, commitOutputDiff true emptyState { New := false, ID := 1, Output := 9 } false
        = Except.ok s1 ∧
      s1.unspentOutputs 1 = some 9 ∧
      ∀ i, i ≠ 1 → s1.unspentOutputs i = emptyState.unspentOutputs i :=
  commitOutputDiff_insert_post true emptyState { New := false, ID := 1, Output := 9 } false
    rfl rfl

/-- C8: for either setting of `DEBUG`, a commit whose effective action is a
removal (`d.New ≠ forward`) on a state where `d.ID` is present completes; in
the resulting `unspentOutputs` the identifier `d.ID` is absent and the entry of
every other identifier is unchanged; the outcome is the same whatever output
the diff carries. -/
theorem commitOutputDiff_remove_post (DEBUG : Bool)
    (s : State OutputID Output ContractID FileContract BlockID)
    (d : OutputDiff OutputID Output) (forward : Bool)
    (hrem : d.New ≠ forward) (hpres : (s.unspentOutputs d.ID).isSome = true) :
    ∃ s1, commitOutputDiff DEBUG s d forward = Except.ok s1 ∧
      s1.unspentOutputs d.ID = none ∧
      (∀ i, i ≠ d.ID → s1.unspentOutputs i = s.unspentOutputs i) ∧
      ∀ o : Output, commitOutputDiff DEBUG s { New := d.New, ID := d.ID, Output := o } forward
        = Except.ok s1 := by
  refine ⟨_, commitOutputDiff_remove_present DEBUG s d forward hrem hpres, ?_, ?_, ?_⟩
  · simp
  · intro i hi
    simp [Function.update, hi]
  · intro o
    exact commitOutputDiff_remove_present DEBUG s _ forward hrem hpres

/-- C8 witness: the forward removal `{false, 1, 9}` on the state holding `1 ↦ 5`
(the carried output differs from the stored one). -/
theorem commitOutputDiff_remove_post_witness :
    ∃ s1, commitOutputDiff true oneOutputState { New := false, ID := 1, Output := 9 } true
        = Except.ok s1 ∧
      s1.unspentOutputs 1 = none ∧
      (∀ i, i ≠ 1 → s1.unspentOutputs i = oneOutputState.unspentOutputs i) ∧
      ∀ o : Nat, commitOutputDiff true oneOutputState { New := false, ID := 1, Output := o } true
        = Except.ok s1 :=
  commitOutputDiff_remove_post true oneOutputState { New := false, ID := 1, Output := 9 } true
    (by decide) rfl

end Postconditions

/-! ## The diff query -/

section Query

variable {OutputID Output ContractID FileContract BlockID : Type}

/-- C9: `BlockOutputDiffs` returns the error "requested an unknown block" if and
only if the requested identifier is not a key of `blockMap`; in that case the
returned diff sequence is empty. -/
theorem BlockOutputDiffs_unknown_block
    (s : State OutputID Output ContractID FileContract BlockID) (id : BlockID) :
    ((BlockOutputDiffs s id).2 = some "requested an unknown block" ↔ s.blockMap id = none) ∧
    (s.blockMap id = none → (BlockOutputDiffs s id).1 = []) := by
  unfold BlockOutputDiffs
  cases h : s.blockMap id with
  | none => simp
  | some node => cases hg : node.diffsGenerated <;> simp [hg]

/-- C9 witness: block 7 is not in the two-block state. -/
theorem BlockOutputDiffs_unknown_block_witness :
    (BlockOutputDiffs twoBlockState 7).2 = some "requested an unknown block" ∧
    (BlockOutputDiffs twoBlockState 7).1 = [] :=
  ⟨(BlockOutputDiffs_unknown_block twoBlockState 7).1.2 rfl,
    (BlockOutputDiffs_unknown_block twoBlockState 7).2 rfl⟩

/-- C10: `BlockOutputDiffs` returns the error "diffs have not been generated for
the requested block." if and only if the requested identifier is a key of
`blockMap` whose node has `diffsGenerated = false`, whatever the node's
`outputDiffs` field holds; the returned diff sequence is then empty, and the
error differs from the unknown-block error. -/
theorem BlockOutputDiffs_diffs_not_generated
    (s : State OutputID Output ContractID FileContract BlockID) (id : BlockID) :
    ((BlockOutputDiffs s id).2 = some "diffs have not been generated for the requested block."
      ↔ ∃ node, s.blockMap id = some node ∧ node.diffsGenerated = false) ∧
    (∀ node, s.blockMap id = some node → node.diffsGenerated = false →
      (BlockOutputDiffs s id).1 = [] ∧
      (BlockOutputDiffs s id).2 ≠ some "requested an unknown block") := by
  unfold BlockOutputDiffs
  cases h : s.blockMap id with
  | none => simp
  | some node => cases hg : node.diffsGenerated <;> simp [hg]

/-- C10 witness: block 4 of the two-block state is known, its `outputDiffs`
field is non-empty and its diffs are not generated. -/
theorem BlockOutputDiffs_diffs_not_generated_witness :
    (BlockOutputDiffs twoBlockState 4).2
        = some "diffs have not been generated for the requested block." ∧
    (BlockOutputDiffs twoBlockState 4).1 = [] ∧
    (BlockOutputDiffs twoBlockState 4).2 ≠ some "requested an unknown block" :=
  ⟨(BlockOutputDiffs_diffs_not_generated twoBlockState 4).1.2 ⟨_, rfl, rfl⟩,
    (BlockOutputDiffs_diffs_not_generated twoBlockState 4).2
      { outputDiffs := [{ New := true, ID := 2, Output := 6 }], diffsGenerated := false }
      rfl rfl⟩

/-- C11: `BlockOutputDiffs` returns a nil error if and only if the requested
identifier is a key of `blockMap` whose node has `diffsGenerated = true`, and
then the returned sequence is that node's `outputDiffs`, verbatim. -/
theorem BlockOutputDiffs_success
    (s : State OutputID Output ContractID FileContract BlockID) (id : BlockID) :
    ((BlockOutputDiffs s id).2 = none
      ↔ ∃ node, s.blockMap id = some node ∧ node.diffsGenerated = true) ∧
    (∀ node, s.blockMap id = some node → node.diffsGenerated = true →
      (BlockOutputDiffs s id).1 = node.outputDiffs) := by
  unfold BlockOutputDiffs
  cases h : s.blockMap id with
  | none => simp
  | some node => cases hg : node.diffsGenerated <;> simp [hg]

/-- C11 witness: block 3 of the two-block state has its diffs generated; the
query returns its one recorded diff. -/
theorem BlockOutputDiffs_success_witness :
    (BlockOutputDiffs twoBlockState 3).2 = none ∧
    (BlockOutputDiffs twoBlockState 3).1 = [{ New := true, ID := 1, Output := 5 }] :=
  ⟨(BlockOutputDiffs_success twoBlockState 3).1.2 ⟨_, rfl, rfl⟩,
    (BlockOutputDiffs_success twoBlockState 3).2
      { outputDiffs := [{ New := true, ID := 1, Output := 5 }], diffsGenerated := true }
      rfl rfl⟩

end Query

/-! ## Frame properties -/

section Frame

variable {OutputID Output ContractID FileContract BlockID : Type}
variable [DecidableEq OutputID] [DecidableEq ContractID]

/-- A completed `commitOutputDiff` changes `unspentOutputs` only. -/
theorem commitOutputDiff_frame (DEBUG : Bool)
    (s s1 : State OutputID Output ContractID FileContract BlockID)
    (od : OutputDiff OutputID Output) (forward : Bool)
    (h : commitOutputDiff DEBUG s od forward = Except.ok s1) :
    s1.openContracts = s.openContracts ∧ s1.blockMap = s.blockMap := by
  cases forward <;> cases hn : od.New <;> cases DEBUG <;>
    cases hp : s.unspentOutputs od.ID <;>
    simp [commitOutputDiff, hn, hp] at h <;> subst h <;> exact ⟨rfl, rfl⟩

/-- A completed `commitContractDiff` changes `openContracts` only. -/
theorem commitContractDiff_frame (DEBUG : Bool)
    (s s1 : State OutputID Output ContractID FileContract BlockID)
    (cd : ContractDiff ContractID FileContract) (forward : Bool)
    (h : commitContractDiff DEBUG s cd forward = Except.ok s1) :
    s1.unspentOutputs = s.unspentOutputs ∧ s1.blockMap = s.blockMap := by
  cases forward <;> cases hn : cd.New <;> cases DEBUG <;>
    cases hp : s.openContracts cd.ID <;>
    simp [commitContractDiff, hn, hp] at h <;> subst h <;> exact ⟨rfl, rfl⟩

/-- C12: a completed commit of an output diff or of a contract diff, in either
direction and for either setting of `DEBUG`, leaves `blockMap` (and with it
every node's `outputDiffs` and `diffsGenerated`) unchanged, so
`BlockOutputDiffs` returns on the resulting state what it returns on the
original one: the same sequence and the same error. -/
theorem BlockOutputDiffs_commit_independent (DEBUG : Bool)
    (s s1 : State OutputID Output ContractID FileContract BlockID) (b : BlockID)
    (forward : Bool) :
    (∀ od : OutputDiff OutputID Output,
      commitOutputDiff DEBUG s od forward = Except.ok s1 →
      s1.blockMap = s.blockMap ∧ BlockOutputDiffs s1 b = BlockOutputDiffs s b) ∧
    (∀ cd : ContractDiff ContractID FileContract,
      commitContractDiff DEBUG s cd forward = Except.ok s1 →
      s1.blockMap = s.blockMap ∧ BlockOutputDiffs s1 b = BlockOutputDiffs s b) := by
  constructor
  · intro od h
    have hb := (commitOutputDiff_frame DEBUG s s1 od forward h).2
    exact ⟨hb, by simp [BlockOutputDiffs, hb]⟩
  · intro cd h
    have hb := (commitContractDiff_frame DEBUG s s1 cd forward h).2
    exact ⟨hb, by simp [BlockOutputDiffs, hb]⟩

/-- C12 witness: spending output 1 of the mixed state does not change what the
query returns for block 3. -/
theorem BlockOutputDiffs_commit_independent_witness :
    ∃ s1, commitOutputDiff true mixedState { New := false, ID := 1, Output := 5 } true
        = Except.ok s1 ∧
      s1.blockMap = mixedState.blockMap ∧
      BlockOutputDiffs s1 3 = BlockOutputDiffs mixedState 3 :=
  ⟨_, rfl, (BlockOutputDiffs_commit_independent true mixedState _ 3 true).1
    { New := false, ID := 1, Output := 5 } rfl⟩

end Frame

/-! ## Order of application -/

section Order

variable {OutputID Output ContractID FileContract BlockID : Type}
variable [DecidableEq OutputID] [DecidableEq ContractID]

/-- C13 (as amended): with the sanity checks on, for distinct `O1`, `O2` and a
store holding exactly `{O1 ↦ V}`, after block B (`{false, O1, V}` then
`{true, O2, W}`) is committed forward, reverting its diffs in forward order
triggers no integrity violation and gives back exactly `{O1 ↦ V}`.  A block on
which the forward-order revert does panic is the two-diff block that creates
and then spends one output: for every `O`, `V` and every store without `O`,
after `{true, O, V}` then `{false, O, V}` is committed forward, reverting these
two diffs in forward order ends in the rogue-non-new-output panic. -/
theorem revert_in_forward_order
    (s t : State OutputID Output ContractID FileContract BlockID)
    (O1 O2 O : OutputID) (V W : Output)
    (hne : O1 ≠ O2) (hs : s.unspentOutputs = fun i => if i = O1 then some V else none)
    (ht : t.unspentOutputs O = none) :
    (∃ sB s2,
      commitOutputDiffs true s
        [{ New := false, ID := O1, Output := V }, { New := true, ID := O2, Output := W }] true
        = Except.ok sB ∧
      commitOutputDiffs true sB
        [{ New := false, ID := O1, Output := V }, { New := true, ID := O2, Output := W }] false
        = Except.ok s2 ∧
      s2.unspentOutputs = fun i => if i = O1 then some V else none) ∧
    (∃ tC,
      commitOutputDiffs true t
        [{ New := true, ID := O, Output := V }, { New := false, ID := O, Output := V }] true
        = Except.ok tC ∧
      commitOutputDiffs true tC
        [{ New := true, ID := O, Output := V }, { New := false, ID := O, Output := V }] false
        = Except.error "rogue non-new output in applyOutputDiff") := by
  have hne2 : O2 ≠ O1 := fun h => hne h.symm
  constructor
  · have e1 := commitOutputDiff_remove_present true s
      { New := false, ID := O1, Output := V } true (by simp) (by simp [hs])
    have e2 := commitOutputDiff_add_absent true
      { s with unspentOutputs := Function.update s.unspentOutputs O1 none }
      { New := true, ID := O2, Output := W } true rfl (by simp [hs, Function.update, hne2])
    have e3 := commitOutputDiff_add_absent true
      { s with
        unspentOutputs :=
          Function.update (Function.update s.unspentOutputs O1 none) O2 (some W) }
      { New := false, ID := O1, Output := V } false rfl (by simp [Function.update, hne])
    have e4 := commitOutputDiff_remove_present true
      { s with
        unspentOutputs :=
          Function.update (Function.update (Function.update s.unspentOutputs O1 none)
            O2 (some W)) O1 (some V) }
      { New := true, ID := O2, Output := W } false (by simp) (by simp [Function.update, hne2])
    refine ⟨_, _, (commitOutputDiffs_pair true s _ _ _ true e1).trans e2,
      (commitOutputDiffs_pair true _ _ _ _ false e3).trans e4, ?_⟩
    funext i
    by_cases h : i = O2 <;> by_cases h1 : i = O1 <;> simp_all [Function.update]
  · have e1 := commitOutputDiff_add_absent true t
      { New := true, ID := O, Output := V } true rfl ht
    have e2 := commitOutputDiff_remove_present true
      { t with unspentOutputs := Function.update t.unspentOutputs O (some V) }
      { New := false, ID := O, Output := V } true (by simp) (by simp)
    have e3 := commitOutputDiff_remove_absent
      { t with
        unspentOutputs :=
          Function.update (Function.update t.unspentOutputs O (some V)) O none }
      { New := true, ID := O, Output := V } false (by simp) (by simp)
    refine ⟨_, (commitOutputDiffs_pair true t _ _ _ true e1).trans e2, ?_⟩
    simp only [commitOutputDiffs, e3]

/-- C13 (as stated, refuted): on the store `{1 ↦ 5}`, block B is
`{false, 1, 5}` then `{true, 2, 6}`; committed forward and then reverted in
forward order with the sanity checks on, every step completes: there is no
panic, and identifier 1 holds 5 again while identifier 2 is gone. -/
theorem revert_blockB_in_forward_order_no_panic :
    ∃ sB s2,
      commitOutputDiffs true oneOutputState
        [{ New := false, ID := 1, Output := 5 }, { New := true, ID := 2, Output := 6 }] true
        = Except.ok sB ∧
      commitOutputDiffs true sB
        [{ New := false, ID := 1, Output := 5 }, { New := true, ID := 2, Output := 6 }] false
        = Except.ok s2 ∧
      s2.unspentOutputs 1 = some 5 ∧ s2.unspentOutputs 2 = none :=
  ⟨_, _, rfl, rfl, rfl, rfl⟩

/-- C13 witness: the amended statement at `O1 = 1`, `O2 = 2`, `V = 5`, `W = 6` on
the store `{1 ↦ 5}`, and at `O = 1` on the empty store. -/
theorem revert_in_forward_order_witness :
    (∃ sB s2,
      commitOutputDiffs true oneOutputState
        [{ New := false, ID := 1, Output := 5 }, { New := true, ID := 2, Output := 6 }] true
        = Except.ok sB ∧
      commitOutputDiffs true sB
        [{ New := false, ID := 1, Output := 5 }, { New := true, ID := 2, Output := 6 }] false
        = Except.ok s2 ∧
      s2.unspentOutputs = fun i => if i = 1 then some 5 else none) ∧
    (∃ tC,
      commitOutputDiffs true emptyState
        [{ New := true, ID := 1, Output := 5 }, { New := false, ID := 1, Output := 5 }] true
        = Except.ok tC ∧
      commitOutputDiffs true tC
        [{ New := true, ID := 1, Output := 5 }, { New := false, ID := 1, Output := 5 }] false
        = Except.error "rogue non-new output in applyOutputDiff") :=
  revert_in_forward_order oneOutputState emptyState 1 2 1 5 6 (by decide)
    (by funext i; by_cases h : i = 1 <;> simp [oneOutputState, Function.update, h]) rfl

/-- C14: with the sanity checks on, if committing `d` in direction `f` completes,
committing the same `d` in the same direction again on the resulting state
panics: with the rogue-new-output message when the effective action is an add,
with the rogue-non-new-output message when it is a removal. -/
theorem commit_twice_rejected (s s1 : State OutputID Output ContractID FileContract BlockID)
    (d : OutputDiff OutputID Output) (f : Bool)
    (h : commitOutputDiff true s d f = Except.ok s1) :
    commitOutputDiff true s1 d f =
      Except.error (if d.New = f then "rogue new output in applyOutputDiff"
        else "rogue non-new output in applyOutputDiff") := by
  by_cases hadd : d.New = f
  · rw [if_pos hadd]
    apply commitOutputDiff_add_present s1 d f hadd
    cases hp : s.unspentOutputs d.ID with
    | some v =>
      rw [commitOutputDiff_add_present s d f hadd (by simp [hp])] at h
      cases h
    | none =>
      rw [commitOutputDiff_add_absent true s d f hadd hp] at h
      cases h
      simp
  · rw [if_neg hadd]
    apply commitOutputDiff_remove_absent s1 d f hadd
    cases hp : s.unspentOutputs d.ID with
    | none =>
      rw [commitOutputDiff_remove_absent s d f hadd hp] at h
      cases h
    | some v =>
      rw [commitOutputDiff_remove_present true s d f hadd (by simp [hp])] at h
      cases h
      simp

/-- C14 witness: creating output 1 twice in a row from the empty state. -/
theorem commit_twice_rejected_witness :
    commitOutputDiff true
        { emptyState with unspentOutputs := Function.update emptyState.unspentOutputs 1 (some 5) }
        { New := true, ID := 1, Output := 5 } true =
      Except.error (if true = true then "rogue new output in applyOutputDiff"
        else "rogue non-new output in applyOutputDiff") :=
  commit_twice_rejected emptyState _ { New := true, ID := 1, Output := 5 } true rfl

/-- C15: for either setting of `DEBUG`, two output diffs on distinct
identifiers, each with its own direction, commute: committing `(d1, f1)` then
`(d2, f2)` has the same outcome as committing `(d2, f2)` then `(d1, f1)`; both
orders end in a panic, or both complete with the same state. -/
theorem commitOutputDiff_comm_of_ne (DEBUG : Bool)
    (s : State OutputID Output ContractID FileContract BlockID)
    (d1 d2 : OutputDiff OutputID Output) (f1 f2 : Bool) (hne : d1.ID ≠ d2.ID) :
    sameOutcome
      ((commitOutputDiff DEBUG s d1 f1).bind fun s1 => commitOutputDiff DEBUG s1 d2 f2)
      ((commitOutputDiff DEBUG s d2 f2).bind fun s2 => commitOutputDiff DEBUG s2 d1 f1) := by
  have hne2 : d2.ID ≠ d1.ID := fun h => hne h.symm
  have hc := fun (a b : Option Output) =>
    Function.update_comm hne a b s.unspentOutputs
  cases f1 <;> cases f2 <;> cases h1 : d1.New <;> cases h2 : d2.New <;> cases DEBUG <;>
    cases hp1 : s.unspentOutputs d1.ID <;> cases hp2 : s.unspentOutputs d2.ID <;>
    simp [commitOutputDiff, Except.bind, sameOutcome, h1, h2, hp1, hp2,
      Function.update_noteq hne, Function.update_noteq hne2, hc]

/-- C15 witness: on the store `{1 ↦ 5}`, spending output 1 and creating output 2
in either order. -/
theorem commitOutputDiff_comm_of_ne_witness :
    sameOutcome
      ((commitOutputDiff true oneOutputState { New := false, ID := 1, Output := 5 } true).bind
        fun s1 => commitOutputDiff true s1 { New := true, ID := 2, Output := 6 } true)
      ((commitOutputDiff true oneOutputState { New := true, ID := 2, Output := 6 } true).bind
        fun s2 => commitOutputDiff true s2 { New := false, ID := 1, Output := 5 } true) :=
  commitOutputDiff_comm_of_ne true oneOutputState { New := false, ID := 1, Output := 5 }
    { New := true, ID := 2, Output := 6 } true true (by decide)

end Order

/-! ## The contract namespace -/

section Contracts

variable {OutputID Output ContractID FileContract BlockID : Type}
variable [DecidableEq OutputID] [DecidableEq ContractID]

/-- C16: `commitContractDiff` is `commitOutputDiff` over the contract namespace.
For every state `s`, every state `t` over the contract types whose
`unspentOutputs` is the `openContracts` of `s`, every contract diff and
direction and either setting of `DEBUG`, `commitContractDiff` on `s` panics
exactly when `commitOutputDiff` on `t` and the corresponding output diff does,
and otherwise the resulting `openContracts` is the resulting `unspentOutputs`.
Hence for contract diffs too: a backward commit is the forward commit of the
flipped diff; with the sanity checks on an add of a present identifier and a
removal of an absent one panic; and a forward commit followed by a backward
commit of a diff whose identifier is absent (creation) or present (removal)
completes and leaves the entry absent, respectively holding `cd.Contract`. -/
theorem commitContractDiff_refines_commitOutputDiff {OutputID2 Output2 BlockID2 : Type}
    (DEBUG : Bool) (s : State OutputID Output ContractID FileContract BlockID)
    (t : State ContractID FileContract OutputID2 Output2 BlockID2)
    (cd : ContractDiff ContractID FileContract) (forward : Bool)
    (hcorr : t.unspentOutputs = s.openContracts) :
    outcomesCorrespond (commitContractDiff DEBUG s cd forward)
      (commitOutputDiff DEBUG t cd.toOutputDiff forward) ∧
    commitContractDiff DEBUG s cd false =
      commitContractDiff DEBUG s { New := !cd.New, ID := cd.ID, Contract := cd.Contract } true ∧
    (cd.New = forward → (s.openContracts cd.ID).isSome = true →
      commitContractDiff true s cd forward
        = Except.error "rogue new contract in applyContractDiff") ∧
    (cd.New ≠ forward → s.openContracts cd.ID = none →
      commitContractDiff true s cd forward
        = Except.error "rogue non-new contract in applyContractDiff") ∧
    ((cd.New = true → s.openContracts cd.ID = none) →
      (cd.New = false → (s.openContracts cd.ID).isSome = true) →
      ∃ s1 s2, commitContractDiff DEBUG s cd true = Except.ok s1 ∧
        commitContractDiff DEBUG s1 cd false = Except.ok s2 ∧
        s2.openContracts cd.ID = (if cd.New then none else some cd.Contract) ∧
        (s2.openContracts cd.ID).isSome = (s.openContracts cd.ID).isSome) := by
  refine ⟨?_, ?_, ?_, ?_, ?_⟩
  · cases forward <;> cases hn : cd.New <;> cases DEBUG <;>
      cases hp : s.openContracts cd.ID <;>
      simp [commitContractDiff, commitOutputDiff, outcomesCorrespond,
        ContractDiff.toOutputDiff, hcorr, hn, hp]
  · simp [commitContractDiff]
  · intro hadd hpres
    cases forward <;> simp_all [commitContractDiff]
  · intro hrem habs
    cases forward <;> simp_all [commitContractDiff]
  · intro hnew hold
    cases hn : cd.New with
    | true =>
      have habs := hnew hn
      cases DEBUG <;> simp [commitContractDiff, hn, habs]
    | false =>
      have hpres := hold hn
      cases DEBUG <;> simp [commitContractDiff, hn, hpres]

/-- C16 witness: closing contract 1 of the mixed state, against the output
side run on a state whose unspent outputs are the open contracts `{1 ↦ 8}`. -/
theorem commitContractDiff_refines_commitOutputDiff_witness :
    outcomesCorrespond
      (commitContractDiff true mixedState { New := false, ID := 1, Contract := 8 } true)
      (commitOutputDiff true
        ({ emptyState with unspentOutputs := Function.update (fun _ => none) 1 (some 8) })
        (ContractDiff.toOutputDiff { New := false, ID := 1, Contract := 8 }) true) :=
  (commitContractDiff_refines_commitOutputDiff true mixedState
    { emptyState with unspentOutputs := Function.update (fun _ => none) 1 (some 8) }
    { New := false, ID := 1, Contract := 8 } true rfl).1

/-- C17: for either setting of `DEBUG`, a completed `commitOutputDiff` leaves
`openContracts` unchanged and a completed `commitContractDiff` leaves
`unspentOutputs` unchanged; an output diff and a contract diff commute (both
orders panic, or both complete with the same state), whatever their
identifiers. -/
theorem namespaces_separate (DEBUG : Bool)
    (s : State OutputID Output ContractID FileContract BlockID)
    (od : OutputDiff OutputID Output) (cd : ContractDiff ContractID FileContract)
    (f1 f2 : Bool) :
    (∀ s1, commitOutputDiff DEBUG s od f1 = Except.ok s1 →
      s1.openContracts = s.openContracts) ∧
    (∀ s1, commitContractDiff DEBUG s cd f2 = Except.ok s1 →
      s1.unspentOutputs = s.unspentOutputs) ∧
    sameOutcome
      ((commitOutputDiff DEBUG s od f1).bind fun s1 => commitContractDiff DEBUG s1 cd f2)
      ((commitContractDiff DEBUG s cd f2).bind fun s1 => commitOutputDiff DEBUG s1 od f1) := by
  refine ⟨fun s1 h => (commitOutputDiff_frame DEBUG s s1 od f1 h).1,
    fun s1 h => (commitContractDiff_frame DEBUG s s1 cd f2 h).1, ?_⟩
  cases f1 <;> cases f2 <;> cases h1 : od.New <;> cases h2 : cd.New <;> cases DEBUG <;>
    cases hp1 : s.unspentOutputs od.ID <;> cases hp2 : s.openContracts cd.ID <;>
    simp [commitOutputDiff, commitContractDiff, Except.bind, sameOutcome, h1, h2, hp1, hp2]

/-- C17 witness: in the mixed state output 1 and contract 1 have the same
identifier value; spending the output leaves the contract map unchanged,
closing the contract leaves the output map unchanged, and the two commute. -/
theorem namespaces_separate_witness :
    (∃ s1, commitOutputDiff true mixedState { New := false, ID := 1, Output := 5 } true
        = Except.ok s1 ∧ s1.openContracts = mixedState.openContracts) ∧
    (∃ s1, commitContractDiff true mixedState { New := false, ID := 1, Contract := 8 } true
        = Except.ok s1 ∧ s1.unspentOutputs = mixedState.unspentOutputs) ∧
    sameOutcome
      ((commitOutputDiff true mixedState { New := false, ID := 1, Output := 5 } true).bind
        fun s1 => commitContractDiff true s1 { New := false, ID := 1, Contract := 8 } true)
      ((commitContractDiff true mixedState { New := false, ID := 1, Contract := 8 } true).bind
        fun s1 => commitOutputDiff true s1 { New := false, ID := 1, Output := 5 } true) :=
  ⟨⟨_, rfl, (namespaces_separate true mixedState { New := false, ID := 1, Output := 5 }
      { New := false, ID := 1, Contract := 8 } true true).1 _ rfl⟩,
    ⟨_, rfl, (namespaces_separate true mixedState { New := false, ID := 1, Output := 5 }
      { New := false, ID := 1, Contract := 8 } true true).2.1 _ rfl⟩,
    (namespaces_separate true mixedState { New := false, ID := 1, Output := 5 }
      { New := false, ID := 1, Contract := 8 } true true).2.2⟩

end Contracts

/-! ## Whole-map reversibility and the unchecked build -/

section WholeMap

variable {OutputID Output ContractID FileContract BlockID : Type}
variable [DecidableEq OutputID] [DecidableEq ContractID]

/-- C18: if the forward application of `L` to `s` triggers no integrity
violation (the run with the sanity checks on completes, in `s1`) and every
removal diff of `L` carries the value stored under its identifier at the moment
it is applied, then committing the reverse of `L` backward from `s1` triggers no
integrity violation at any step (the checked run completes), the run gives the
same result for either setting of `DEBUG`, and the resulting `unspentOutputs`
agrees with that of `s` on every identifier. -/
theorem commitOutputDiffs_whole_map_reversible (DEBUG : Bool)
    (s s1 : State OutputID Output ContractID FileContract BlockID)
    (L : List (OutputDiff OutputID Output))
    (hfwd : commitOutputDiffs true s L true = Except.ok s1)
    (hpay : payloadFaithful s L) :
    ∃ s2, commitOutputDiffs true s1 L.reverse false = Except.ok s2 ∧
      commitOutputDiffs DEBUG s1 L.reverse false = Except.ok s2 ∧
      ∀ i, s2.unspentOutputs i = s.unspentOutputs i :=
  ⟨s, commitOutputDiffs_revert s s1 L hfwd hpay,
    commitOutputDiffs_ok_of_checked DEBUG s1 s L.reverse false
      (commitOutputDiffs_revert s s1 L hfwd hpay), fun _ => rfl⟩

/-- C18 witness: on the store `{1 ↦ 5}` the sequence that creates output 2,
spends output 1 and spends output 2 again, applied and then reverted. -/
theorem commitOutputDiffs_whole_map_reversible_witness :
    ∃ s1, commitOutputDiffs true oneOutputState
        [{ New := true, ID := 2, Output := 6 }, { New := false, ID := 1, Output := 5 },
          { New := false, ID := 2, Output := 6 }] true = Except.ok s1 ∧
      ∃ s2, commitOutputDiffs true s1
          [{ New := true, ID := 2, Output := 6 }, { New := false, ID := 1, Output := 5 },
            { New := false, ID := 2, Output := 6 }].reverse false = Except.ok s2 ∧
        commitOutputDiffs false s1
          [{ New := true, ID := 2, Output := 6 }, { New := false, ID := 1, Output := 5 },
            { New := false, ID := 2, Output := 6 }].reverse false = Except.ok s2 ∧
        ∀ i, s2.unspentOutputs i = oneOutputState.unspentOutputs i :=
  ⟨_, rfl, commitOutputDiffs_whole_map_reversible false oneOutputState _
    [{ New := true, ID := 2, Output := 6 }, { New := false, ID := 1, Output := 5 },
      { New := false, ID := 2, Output := 6 }] rfl
    ⟨fun h => Bool.noConfusion h,
      show payloadFaithful _ [{ New := false, ID := 1, Output := 5 },
          { New := false, ID := 2, Output := 6 }] from
        ⟨fun _ => rfl,
          show payloadFaithful _ [{ New := false, ID := 2, Output := 6 }] from
            ⟨fun _ => rfl, trivial⟩⟩⟩⟩

/-- C19: with the sanity checks compiled out, `commitOutputDiff` never fails;
in the resulting `unspentOutputs` the entry of `d.ID` is `d.Output` when
`d.New = forward` (whatever was stored before) and is absent otherwise (the
commit is a no-op on the map when `d.ID` was already absent); every other
identifier is unchanged. -/
theorem commitOutputDiff_unchecked (s : State OutputID Output ContractID FileContract BlockID)
    (d : OutputDiff OutputID Output) (forward : Bool) :
    ∃ s1, commitOutputDiff false s d forward = Except.ok s1 ∧
      s1.unspentOutputs d.ID = (if d.New = forward then some d.Output else none) ∧
      (∀ i, i ≠ d.ID → s1.unspentOutputs i = s.unspentOutputs i) ∧
      (d.New ≠ forward → s.unspentOutputs d.ID = none →
        s1.unspentOutputs = s.unspentOutputs) := by
  by_cases hadd : d.New = forward
  · have e : commitOutputDiff false s d forward = Except.ok
        { s with unspentOutputs := Function.update s.unspentOutputs d.ID (some d.Output) } := by
      cases forward <;> simp_all [commitOutputDiff]
    refine ⟨_, e, by simp [hadd], fun i hi => by simp [Function.update, hi],
      fun h => absurd hadd h⟩
  · have e : commitOutputDiff false s d forward = Except.ok
        { s with unspentOutputs := Function.update s.unspentOutputs d.ID none } := by
      cases forward <;> simp_all [commitOutputDiff]
    refine ⟨_, e, by simp [hadd], fun i hi => by simp [Function.update, hi], fun _ habs => ?_⟩
    show Function.update s.unspentOutputs d.ID none = s.unspentOutputs
    rw [← habs, Function.update_eq_self]

/-- C19 witness: without the checks, creating output 1 on the store `{1 ↦ 5}`
overwrites it with 9, and spending output 1 on the empty store changes
nothing. -/
theorem commitOutputDiff_unchecked_witness :
    (∃ s1, commitOutputDiff false oneOutputState { New := true, ID := 1, Output := 9 } true
        = Except.ok s1 ∧ s1.unspentOutputs 1 = some 9) ∧
    (∃ s1, commitOutputDiff false emptyState { New := false, ID := 1, Output := 5 } true
        = Except.ok s1 ∧ s1.unspentOutputs = emptyState.unspentOutputs) := by
  obtain ⟨s1, h1, h2, _, _⟩ :=
    commitOutputDiff_unchecked oneOutputState { New := true, ID := 1, Output := 9 } true
  obtain ⟨t1, k1, _, _, k4⟩ :=
    commitOutputDiff_unchecked emptyState { New := false, ID := 1, Output := 5 } true
  exact ⟨⟨s1, h1, by simpa using h2⟩, ⟨t1, k1, k4 (by decide) rfl⟩⟩

end WholeMap

end Consensus
